import Mathlib

/-!
Verification of the ingestion-to-visualization pipeline of the EXCEL-ANALYTICS
repository: a shallow embedding of the data model and the pure logic of
FileUpload.processExcelFile, DataPreview (search / sort / pagination / cell
rendering), ChartGenerator (chartData and layout), and the Dashboard upload
history, together with theorems settling the frozen specification claims.

Modelling conventions:
- A spreadsheet cell is a string, a number, a boolean, or empty (a missing
  cell, i.e. a hole / undefined in the decoded row arrays).  Numbers are
  modelled as integers: every concrete value appearing in the spec scenarios
  is integral, and no claim depends on non-integral or non-finite floats.
- The JavaScript builtins used by the source (Number, String, toLowerCase,
  includes, indexOf, === and <) are modelled by executable Lean functions
  faithful on the fragment exercised by the code: decimal integer strings for
  Number, ASCII lowering for toLowerCase, code-point lexicographic order for
  string <.
- Array.prototype.sort with a comparator is required by ES2019+ to be stable;
  it is modelled by a stable insertion sort driven by the source comparator.
  For comparators that are not consistent the ECMAScript standard leaves the
  resulting order implementation-defined.
-/

/-- A decoded spreadsheet cell: string, number, boolean, or empty/missing
(an absent cell in the decoded row, i.e. undefined when indexed). -/
inductive Cell where
  | str (s : String)
  | num (n : Int)
  | boolb (b : Bool)
  | empty
deriving DecidableEq, Repr

/-- Models the JS Number builtin on nonempty strings, restricted to the
decimal-integer fragment (optional leading minus sign followed by digits);
returns none for strings a JS engine would coerce to NaN.  Strings outside
this fragment (decimal fractions, exponents, hex) do not occur in the
claims' inputs. -/
def jsParseNum (s : String) : Option Int :=
  match s.data with
  | [] => none
  | '-' :: rest =>
    if rest ≠ [] && rest.all Char.isDigit then
      some (-(Int.ofNat (rest.foldl (fun acc c => acc * 10 + (c.toNat - 48)) 0)))
    else none
  | l =>
    if l.all Char.isDigit then
      some (Int.ofNat (l.foldl (fun acc c => acc * 10 + (c.toNat - 48)) 0))
    else none

/-- Models ToNumber, the JS numeric coercion: numbers pass through, booleans
become 0/1, the empty string becomes 0, a missing cell (undefined) is NaN
(none), and other strings parse per jsParseNum. -/
def toNumber : Cell → Option Int
  | Cell.num n => some n
  | Cell.boolb b => some (if b then 1 else 0)
  | Cell.empty => none
  | Cell.str s => if s = "" then some 0 else jsParseNum s

/-- Models the JS strict equality === on the cell domain: values of the same
kind compare structurally, values of different kinds are never equal
(undefined === undefined is true, matching Cell.empty = Cell.empty). -/
def jsStrictEq (a b : Cell) : Bool := decide (a = b)

/-- Models the JS abstract relational comparison a < b on cells: two strings
compare lexicographically by code point, otherwise both sides are coerced by
ToNumber and compared numerically, any NaN making the comparison false. -/
def jsLt (a b : Cell) : Bool :=
  match a, b with
  | Cell.str s, Cell.str t => decide (s < t)
  | a, b =>
    match toNumber a, toNumber b with
    | some x, some y => decide (x < y)
    | _, _ => false

/-- Models the JS String builtin on cells: strings pass through, numbers
print in decimal, booleans print as true/false, and undefined prints as
the word it is in JS.  (The search filter below never reaches the empty
case: missing cells are holes skipped by the array iteration.) -/
def jsToString : Cell → String
  | Cell.str s => s
  | Cell.num n => toString n
  | Cell.boolb b => if b then "true" else "false"
  | Cell.empty => "undefined"

/-- Models String.prototype.toLowerCase on the ASCII fragment. -/
def jsToLower (s : String) : String := String.mk (s.data.map Char.toLower)

/-- Models String.prototype.includes: substring containment. -/
def containsSub (s pat : String) : Bool :=
  (List.range (s.data.length + 1)).any (fun i => pat.data.isPrefixOf (s.data.drop i))

/-- Models JS truthiness of a cell: 0, false, the empty string and a missing
cell (undefined) are falsy, everything else truthy. -/
def jsTruthy : Cell → Bool
  | Cell.num n => decide (n ≠ 0)
  | Cell.str s => decide (s ≠ "")
  | Cell.boolb b => b
  | Cell.empty => false

/-- Models Array.prototype.indexOf over the header list: the index of the
first occurrence of s, or -1 when absent. -/
def jsIndexOf (l : List String) (s : String) : Int :=
  match l with
  | [] => -1
  | x :: xs =>
    if x = s then 0
    else
      let r := jsIndexOf xs s
      if r = -1 then -1 else r + 1

/-- Models row[i] for a possibly negative or out-of-range index: a missing
entry reads as undefined (Cell.empty). -/
def jsGetI (row : List Cell) (i : Int) : Cell :=
  match i with
  | Int.ofNat n => (row.get? n).getD Cell.empty
  | Int.negSucc _ => Cell.empty

/-!
FileUpload.processExcelFile (src/src/components/FileUpload.tsx): size and
MIME validation, then decoding of the codec output (the raw row-major
matrix that XLSX.utils.sheet_to_json returns) into headers plus data rows.
-/

/-- The failure kinds thrown by processExcelFile, one per thrown Error
message in the source. -/
inductive UploadError where
  | sizeExceeded
  | unsupportedType
  | emptyWorkbook
  | noHeaders
  | noDataRows
deriving DecidableEq, Repr

/-- The decoded tabular snapshot handed to onDataUpload: the first raw row
as headers and the remaining raw rows as data. -/
structure ExcelData where
  headers : List Cell
  rows : List (List Cell)
deriving DecidableEq, Repr

/-- The 10 MiB hard size ceiling from the source. -/
def maxFileSize : Nat := 10 * 1024 * 1024

/-- The two recognized spreadsheet MIME strings from the source. -/
def allowedTypes : List String :=
  ["application/vnd.openxmlformats-officedocument.spreadsheetml.sheet",
   "application/vnd.ms-excel"]

/-- The validation prefix of processExcelFile: the size check runs first,
then the declared-type check. -/
def validateFile (sizeBytes : Nat) (mimeType : String) : Except UploadError Unit :=
  if sizeBytes > maxFileSize then Except.error UploadError.sizeExceeded
  else if !(allowedTypes.contains mimeType) then Except.error UploadError.unsupportedType
  else Except.ok ()

/-- The decoding tail of processExcelFile, applied to the raw matrix
returned by the external codec: row 0 is unconditionally the header row,
all later rows are data; empty matrix, empty header row and absent data
rows each throw. -/
def decodeSheet (jsonData : List (List Cell)) : Except UploadError ExcelData :=
  match jsonData with
  | [] => Except.error UploadError.emptyWorkbook
  | headers :: rest =>
    if headers.length = 0 then Except.error UploadError.noHeaders
    else if rest.length = 0 then Except.error UploadError.noDataRows
    else Except.ok { headers := headers, rows := rest }

/-- processExcelFile end to end: validation first (size, then type), and
only on success the decode of the codec output. -/
def processExcelFile (sizeBytes : Nat) (mimeType : String)
    (jsonData : List (List Cell)) : Except UploadError ExcelData :=
  match validateFile sizeBytes mimeType with
  | Except.error e => Except.error e
  | Except.ok _ => decodeSheet jsonData

/-!
DataPreview (the second component of src/src/components/ErrorBoundary.tsx):
search filter, sort, pagination and cell rendering.
-/

/-- The sort direction state of DataPreview. -/
inductive SortDir where
  | asc
  | desc
deriving DecidableEq, Repr

/-- The DataPreview view state: search term, optional sort column (null
when unset), sort direction, and the show-all toggle. -/
structure ViewState where
  searchTerm : String
  sortColumn : Option String
  sortDirection : SortDir
  showAllRows : Bool
deriving Repr

/-- One cell's contribution to the search filter:
String(cell).toLowerCase().includes(searchTerm.toLowerCase()).  A missing
cell is a hole in the decoded row array and is skipped by the iteration,
so it never matches. -/
def cellMatches (term : String) : Cell → Bool
  | Cell.empty => false
  | c => containsSub (jsToLower (jsToString c)) (jsToLower term)

/-- The row predicate of the search filter: some cell matches. -/
def rowMatches (term : String) (row : List Cell) : Bool :=
  row.any (cellMatches term)

/-- The search stage of filteredAndSortedData: a falsy (empty) search term
leaves the data unfiltered. -/
def filteredRows (term : String) (data : List (List Cell)) : List (List Cell) :=
  if term = "" then data else data.filter (rowMatches term)

/-- The sort comparator of filteredAndSortedData: 0 on strictly equal
values at the sort column, otherwise -1/1 by the JS relational comparison,
negated for descending order. -/
def rowCompare (headers : List String) (c : String) (dir : SortDir)
    (a b : List Cell) : Int :=
  let columnIndex := jsIndexOf headers c
  let aVal := jsGetI a columnIndex
  let bVal := jsGetI b columnIndex
  if jsStrictEq aVal bVal then 0
  else
    let comparison : Int := if jsLt aVal bVal then -1 else 1
    if dir = SortDir.asc then comparison else -comparison

/-- The keep-before relation induced by the comparator: a may stay before b
exactly when the comparator does not demand the swap. -/
def rowLe (headers : List String) (c : String) (dir : SortDir)
    (a b : List Cell) : Bool :=
  decide (rowCompare headers c dir a b ≤ 0)

/-- Stable insertion of x into l before the first element y with le x y. -/
def insertSorted (le : α → α → Bool) (x : α) : List α → List α
  | [] => [x]
  | y :: ys => if le x y then x :: y :: ys else y :: insertSorted le x ys

/-- Stable insertion sort, the model of the ES2019+ stable
Array.prototype.sort driven by the source comparator. -/
def insertionSortB (le : α → α → Bool) : List α → List α
  | [] => []
  | x :: xs => insertSorted le x (insertionSortB le xs)

/-- The sort stage of filteredAndSortedData for a set sort column. -/
def sortRows (headers : List String) (c : String) (dir : SortDir)
    (l : List (List Cell)) : List (List Cell) :=
  insertionSortB (rowLe headers c dir) l

/-- filteredAndSortedData: search filter, then (when a sort column is set)
the stable sort by that column. -/
def filteredAndSortedData (data : List (List Cell)) (headers : List String)
    (st : ViewState) : List (List Cell) :=
  let fd := filteredRows st.searchTerm data
  match st.sortColumn with
  | none => fd
  | some c => sortRows headers c st.sortDirection fd

/-- The fixed preview page size of DataPreview. -/
def maxPreviewRows : Nat := 10

/-- previewRows: the whole matched/sorted set when showAllRows, else its
first maxPreviewRows rows. -/
def previewRows (data : List (List Cell)) (headers : List String)
    (st : ViewState) : List (List Cell) :=
  let fs := filteredAndSortedData data headers st
  if st.showAllRows then fs else fs.take maxPreviewRows

/-- hasMoreRows: whether the matched/sorted set exceeds the page size
(computed from the filtered set alone, independent of showAllRows). -/
def hasMoreRows (data : List (List Cell)) (headers : List String)
    (st : ViewState) : Bool :=
  decide (maxPreviewRows < (filteredAndSortedData data headers st).length)

/-- The table-cell rendering expression row[colIndex] || '-': the JS
logical-or yields the cell itself when truthy and the placeholder dash
otherwise. -/
def renderCell (c : Cell) : Cell :=
  if jsTruthy c then c else Cell.str "-"

/-!
ChartGenerator (src/src/components/ChartGenerator.tsx): the chartData memo
mapping (data, headers, axis selection, chart type) to traces or a failure,
and the layout object passed to the chart widget alongside the traces.
-/

/-- The fixed chart type enumeration of the source. -/
inductive ChartType where
  | bar
  | line
  | scatter
  | pie
  | bar3d
  | scatter3d
deriving DecidableEq, Repr

/-- The shape of a cartesian trace object built by chartData: data vectors,
series name, plotly type and mode strings, and whether the marker color is
driven by the y-values with a visible color scale (the 3d variants). -/
structure CartTrace where
  x : List Cell
  y : List Cell
  name : String
  ttype : String
  mode : Option String
  markerColorByY : Bool
  showscale : Bool
deriving DecidableEq, Repr

/-- A trace built by chartData: a cartesian trace or the pie trace carrying
labels and values. -/
inductive Trace where
  | cart (t : CartTrace)
  | pie (labels values : List Cell)
deriving DecidableEq, Repr

/-- The error message set by chartData when no y-value is numeric. -/
def noNumericMsg : String := "Selected Y-axis column contains no numeric data"

/-- The numeric-coercion filter of chartData:
!isNaN(Number(val)) && val !== null && val !== ''.  On our cell domain the
null test is vacuous (missing cells read as undefined, which is NaN under
Number), and the empty string is excluded explicitly. -/
def coercesNum (c : Cell) : Bool :=
  (toNumber c).isSome && !(jsStrictEq c (Cell.str ""))

/-- chartData as a pair: the memo value (the trace list, or null), and the
error message the memo pushes through setError (none when no message is
pushed on this evaluation).  Mirrors the source branch for branch: missing
axis or empty data returns null silently, an axis name absent from headers
returns null silently, an all-non-numeric y-column returns null and pushes
the NoNumericData message, and otherwise the switch builds one trace. -/
def chartData (data : List (List Cell)) (headers : List String)
    (xAxis yAxis : String) (ct : ChartType) :
    Option (List Trace) × Option String :=
  if xAxis = "" || yAxis = "" || data.length = 0 then (none, none)
  else
    let xIndex := jsIndexOf headers xAxis
    let yIndex := jsIndexOf headers yAxis
    if xIndex = -1 || yIndex = -1 then (none, none)
    else
      let xValues := data.map (fun row => jsGetI row xIndex)
      let yValues := data.map (fun row => jsGetI row yIndex)
      let numericYValues := yValues.filter coercesNum
      if numericYValues.length = 0 then (none, some noNumericMsg)
      else
        let nm := yAxis ++ " vs " ++ xAxis
        (some (match ct with
          | ChartType.bar =>
            [Trace.cart ⟨xValues, yValues, nm, "bar", none, false, false⟩]
          | ChartType.line =>
            [Trace.cart ⟨xValues, yValues, nm, "scatter", some "lines+markers", false, false⟩]
          | ChartType.scatter =>
            [Trace.cart ⟨xValues, yValues, nm, "scatter", some "markers", false, false⟩]
          | ChartType.pie =>
            [Trace.pie xValues yValues]
          | ChartType.bar3d =>
            [Trace.cart ⟨xValues, yValues, nm, "bar", none, true, true⟩]
          | ChartType.scatter3d =>
            [Trace.cart ⟨xValues, yValues, nm, "scatter3d", some "markers", true, true⟩]),
         none)

/-- The layout descriptor passed to the chart widget: title text and the
two axis titles (optional so that an omitted axis title is expressible). -/
structure Layout where
  title : String
  xAxisTitle : Option String
  yAxisTitle : Option String
deriving DecidableEq, Repr

/-- The layout object of ChartGenerator: built from the axis names alone,
with both axis titles always present, for every chart type. -/
def chartLayout (xAxis yAxis : String) : Layout :=
  { title := yAxis ++ " vs " ++ xAxis
    xAxisTitle := some xAxis
    yAxisTitle := some yAxis }

/-- What the component hands to the chart widget when chartData is
non-null: the traces paired with the layout. -/
def chartRender (data : List (List Cell)) (headers : List String)
    (xAxis yAxis : String) (ct : ChartType) : Option (List Trace × Layout) :=
  match (chartData data headers xAxis yAxis ct).1 with
  | none => none
  | some ts => some (ts, chartLayout xAxis yAxis)

/-- The coercion rule exactly as the specification words it (section 4.5):
a value coerces to numeric iff it is a number, or a string that parses
fully as a number; empty/null values do not coerce.  Declared only to be
compared with the code's coercesNum. -/
def specCoercesNumeric : Cell → Bool
  | Cell.num _ => true
  | Cell.str s => (jsParseNum s).isSome
  | _ => false

/-!
Dashboard (src/unnamed/part_000): the upload-history bookkeeping inside
handleDataUpload.
-/

/-- An upload-history record as kept by the Dashboard (the upload date is
kept abstract as a string tick; nothing below depends on it). -/
structure UploadRecord where
  id : String
  fileName : String
  rowCount : Nat
  columnCount : Nat
deriving DecidableEq, Repr

/-- One history update:
setUploadHistory(prev => [newUpload, ...prev.slice(0, 4)]). -/
def pushHistory (newUpload : UploadRecord) (prev : List UploadRecord) :
    List UploadRecord :=
  newUpload :: prev.take 4

/-- The history after a sequence of successful uploads, oldest first,
starting from the empty history. -/
def histAfter (uploads : List UploadRecord) : List UploadRecord :=
  uploads.foldl (fun acc u => pushHistory u acc) []

/-!
Helper lemmas about the stable insertion sort model.
-/

theorem mem_insertSorted {le : α → α → Bool} {x a : α} {l : List α} :
    a ∈ insertSorted le x l ↔ a = x ∨ a ∈ l := by
  induction l with
  | nil => simp [insertSorted]
  | cons y ys ih =>
    simp only [insertSorted]
    by_cases h : le x y = true
    · simp [h, List.mem_cons]
    · simp [h, List.mem_cons, ih]
      tauto

theorem mem_insertionSortB {le : α → α → Bool} {a : α} {l : List α} :
    a ∈ insertionSortB le l ↔ a ∈ l := by
  induction l with
  | nil => simp [insertionSortB]
  | cons x xs ih => simp [insertionSortB, mem_insertSorted, ih, List.mem_cons]

theorem filter_insertSorted_neg {le : α → α → Bool} {p : α → Bool} {x : α}
    (hx : p x = false) (l : List α) :
    (insertSorted le x l).filter p = l.filter p := by
  induction l with
  | nil => simp [insertSorted, hx]
  | cons y ys ih =>
    simp only [insertSorted]
    by_cases h : le x y = true
    · simp [h, List.filter_cons, hx]
    · simp [h, List.filter_cons, ih]

theorem filter_insertSorted_pos {le : α → α → Bool} {p : α → Bool} {x : α}
    (hx : p x = true) (l : List α)
    (h : ∀ y ∈ l, p y = true → le x y = true) :
    (insertSorted le x l).filter p = x :: l.filter p := by
  induction l with
  | nil => simp [insertSorted, hx]
  | cons y ys ih =>
    simp only [insertSorted]
    by_cases hxy : le x y = true
    · simp [hxy, List.filter_cons, hx]
    · have hpy : p y = false := by
        cases hq : p y
        · rfl
        · exact absurd (h y (by simp) hq) hxy
      rw [if_neg hxy]
      rw [List.filter_cons, List.filter_cons]
      simp only [hpy, cond_false]
      exact ih (fun z hz hpz => h z (List.mem_cons_of_mem y hz) hpz)

theorem filter_insertionSortB {le : α → α → Bool} {p : α → Bool}
    (h : ∀ a b, p a = true → p b = true → le a b = true) (l : List α) :
    (insertionSortB le l).filter p = l.filter p := by
  induction l with
  | nil => rfl
  | cons x xs ih =>
    simp only [insertionSortB]
    cases hx : p x
    · rw [filter_insertSorted_neg hx, ih, List.filter_cons]
      simp [hx]
    · rw [filter_insertSorted_pos hx _ (fun y _ hpy => h x y hx hpy), ih, List.filter_cons]
      simp [hx]

theorem pairwise_insertSorted {le : α → α → Bool} {x : α} {l : List α}
    (hl : List.Pairwise (fun a b => le a b = true) l)
    (htot : ∀ y ∈ l, le x y = true ∨ le y x = true)
    (htr : ∀ y ∈ l, ∀ z ∈ l, le x y = true → le y z = true → le x z = true) :
    List.Pairwise (fun a b => le a b = true) (insertSorted le x l) := by
  induction l with
  | nil => simp [insertSorted]
  | cons y ys ih =>
    obtain ⟨hy, hys⟩ := List.pairwise_cons.mp hl
    simp only [insertSorted]
    by_cases hxy : le x y = true
    · rw [if_pos hxy]
      refine List.pairwise_cons.mpr ⟨?_, hl⟩
      intro z hz
      rcases List.mem_cons.mp hz with rfl | hz2
      · exact hxy
      · exact htr y (by simp) z (List.mem_cons_of_mem y hz2) hxy (hy z hz2)
    · rw [if_neg hxy]
      refine List.pairwise_cons.mpr ⟨?_, ?_⟩
      · intro z hz
        rcases mem_insertSorted.mp hz with rfl | hz2
        · rcases htot y (by simp) with h1 | h1
          · exact absurd h1 hxy
          · exact h1
        · exact hy z hz2
      · exact ih hys (fun z hz => htot z (List.mem_cons_of_mem y hz))
          (fun z hz w hw => htr z (List.mem_cons_of_mem y hz) w (List.mem_cons_of_mem y hw))

theorem pairwise_insertionSortB {le : α → α → Bool} {l : List α}
    (htot : ∀ a ∈ l, ∀ b ∈ l, le a b = true ∨ le b a = true)
    (htr : ∀ a ∈ l, ∀ b ∈ l, ∀ c ∈ l, le a b = true → le b c = true → le a c = true) :
    List.Pairwise (fun a b => le a b = true) (insertionSortB le l) := by
  induction l with
  | nil => simp [insertionSortB]
  | cons x xs ih =>
    simp only [insertionSortB]
    apply pairwise_insertSorted
    · exact ih (fun a ha b hb => htot a (List.mem_cons_of_mem x ha) b (List.mem_cons_of_mem x hb))
        (fun a ha b hb c hc => htr a (List.mem_cons_of_mem x ha) b (List.mem_cons_of_mem x hb)
          c (List.mem_cons_of_mem x hc))
    · intro y hy
      exact htot x (by simp) y (List.mem_cons_of_mem x (mem_insertionSortB.mp hy))
    · intro y hy z hz
      exact htr x (by simp) y (List.mem_cons_of_mem x (mem_insertionSortB.mp hy))
        z (List.mem_cons_of_mem x (mem_insertionSortB.mp hz))

theorem insertionSortB_of_pairwise {le : α → α → Bool} {l : List α}
    (h : List.Pairwise (fun a b => le a b = true) l) :
    insertionSortB le l = l := by
  induction l with
  | nil => rfl
  | cons x xs ih =>
    obtain ⟨hx, hxs⟩ := List.pairwise_cons.mp h
    simp only [insertionSortB, ih hxs]
    cases xs with
    | nil => rfl
    | cons y ys => simp [insertSorted, hx y (by simp)]

theorem insertionSortB_idem {le : α → α → Bool} {l : List α}
    (htot : ∀ a ∈ l, ∀ b ∈ l, le a b = true ∨ le b a = true)
    (htr : ∀ a ∈ l, ∀ b ∈ l, ∀ c ∈ l, le a b = true → le b c = true → le a c = true) :
    insertionSortB le (insertionSortB le l) = insertionSortB le l :=
  insertionSortB_of_pairwise (pairwise_insertionSortB htot htr)

theorem rowLe_of_eq_key {headers : List String} {c : String} {dir : SortDir}
    {v : Cell} {a b : List Cell}
    (ha : jsStrictEq (jsGetI a (jsIndexOf headers c)) v = true)
    (hb : jsStrictEq (jsGetI b (jsIndexOf headers c)) v = true) :
    rowLe headers c dir a b = true := by
  unfold jsStrictEq at ha hb
  have ha2 := of_decide_eq_true ha
  have hb2 := of_decide_eq_true hb
  simp only [rowLe, rowCompare, ha2, hb2, jsStrictEq]
  simp

/-- Claim C4: the DataView sort is stable — rows whose sort keys are
strictly equal keep their original relative order, proved for every matched
row set, column and direction — and sorting twice by the same column and
direction equals sorting once, proved under the hypothesis that the
comparator-induced keep-before relation is total and transitive on the rows
being sorted (as it is, for example, on a column of numbers).  The
restriction is forced: for mixed-type columns the source comparator can be
inconsistent (see the counterexample), a case in which ECMAScript leaves
the sort order implementation-defined. -/
theorem spec_C4_sort_amended (headers : List String) (c : String)
    (dir : SortDir) (l : List (List Cell)) :
    (∀ v : Cell,
      (sortRows headers c dir l).filter
          (fun r => jsStrictEq (jsGetI r (jsIndexOf headers c)) v)
        = l.filter (fun r => jsStrictEq (jsGetI r (jsIndexOf headers c)) v)) ∧
    ((∀ a ∈ l, ∀ b ∈ l, rowLe headers c dir a b = true ∨ rowLe headers c dir b a = true) →
     (∀ a ∈ l, ∀ b ∈ l, ∀ e ∈ l, rowLe headers c dir a b = true →
        rowLe headers c dir b e = true → rowLe headers c dir a e = true) →
     sortRows headers c dir (sortRows headers c dir l) = sortRows headers c dir l) := by
  constructor
  · intro v
    have h : ∀ a b : List Cell,
        (fun r => jsStrictEq (jsGetI r (jsIndexOf headers c)) v) a = true →
        (fun r => jsStrictEq (jsGetI r (jsIndexOf headers c)) v) b = true →
        rowLe headers c dir a b = true :=
      fun a b hpa hpb => rowLe_of_eq_key hpa hpb
    exact filter_insertionSortB h l
  · intro htot htr
    exact insertionSortB_idem htot htr

/-- Witness for C4 at a concrete store: a numeric column with a duplicated
key, where the equal-key rows keep their order and sorting twice equals
sorting once. -/
theorem spec_C4_witness :
    ((sortRows ["A"] "A" SortDir.asc
        [[Cell.num 1, Cell.str "first"], [Cell.num 2], [Cell.num 1, Cell.str "second"]]).filter
        (fun r => jsStrictEq (jsGetI r (jsIndexOf ["A"] "A")) (Cell.num 1))
      = [[Cell.num 1, Cell.str "first"], [Cell.num 2],
         [Cell.num 1, Cell.str "second"]].filter
        (fun r => jsStrictEq (jsGetI r (jsIndexOf ["A"] "A")) (Cell.num 1))) ∧
    sortRows ["A"] "A" SortDir.asc (sortRows ["A"] "A" SortDir.asc
        [[Cell.num 1, Cell.str "first"], [Cell.num 2], [Cell.num 1, Cell.str "second"]])
      = sortRows ["A"] "A" SortDir.asc
        [[Cell.num 1, Cell.str "first"], [Cell.num 2], [Cell.num 1, Cell.str "second"]] :=
  ⟨(spec_C4_sort_amended ["A"] "A" SortDir.asc
      [[Cell.num 1, Cell.str "first"], [Cell.num 2], [Cell.num 1, Cell.str "second"]]).1
      (Cell.num 1),
   (spec_C4_sort_amended ["A"] "A" SortDir.asc
      [[Cell.num 1, Cell.str "first"], [Cell.num 2], [Cell.num 1, Cell.str "second"]]).2
      (by decide) (by decide)⟩

/-- Counterexample to Claim C4 as stated: on the mixed-type column holding
the number 9 and the string 9 the source comparator answers keep-after in
both directions (9 === "9" is false and both relational comparisons are
false), so the modelled stable sort swaps the pair on every pass and
sorting twice does not equal sorting once. -/
theorem spec_C4_counterexample :
    ¬ sortRows ["A"] "A" SortDir.asc
        (sortRows ["A"] "A" SortDir.asc [[Cell.num 9], [Cell.str "9"]])
      = sortRows ["A"] "A" SortDir.asc [[Cell.num 9], [Cell.str "9"]] := by
  decide

/-- Claim C1: pagination over the matched/sorted set — with showAllRows
off, previewRows is the first 10 rows (hence at most 10) and hasMoreRows
equals totalMatched > 10; with showAllRows on, previewRows is the whole
matched/sorted set, but hasMoreRows — the derived truncation flag the claim
names — still equals totalMatched > 10 rather than false, because the
source computes it from the filtered set alone; only the on-screen
truncation notice, gated by hasMoreRows && !showAllRows, is false then. -/
theorem spec_C1_pagination_amended (data : List (List Cell))
    (headers : List String) (st : ViewState) :
    (st.showAllRows = false →
      previewRows data headers st = (filteredAndSortedData data headers st).take 10 ∧
      (previewRows data headers st).length ≤ 10) ∧
    (st.showAllRows = true →
      previewRows data headers st = filteredAndSortedData data headers st ∧
      (previewRows data headers st).length = (filteredAndSortedData data headers st).length) ∧
    hasMoreRows data headers st = decide ((filteredAndSortedData data headers st).length > 10) ∧
    (st.showAllRows = true → (hasMoreRows data headers st && !st.showAllRows) = false) := by
  refine ⟨?_, ?_, ?_, ?_⟩
  · intro h
    unfold previewRows maxPreviewRows
    rw [h]
    simp [List.length_take]
  · intro h
    unfold previewRows
    rw [h]
    simp
  · rfl
  · intro h
    rw [h]
    simp

/-- Witness for C1 at a concrete store and view state with showAllRows
off. -/
theorem spec_C1_witness :
    previewRows [[Cell.num 1]] ["A"] ⟨"", none, SortDir.asc, false⟩
      = (filteredAndSortedData [[Cell.num 1]] ["A"] ⟨"", none, SortDir.asc, false⟩).take 10 ∧
    (previewRows [[Cell.num 1]] ["A"] ⟨"", none, SortDir.asc, false⟩).length ≤ 10 :=
  (spec_C1_pagination_amended [[Cell.num 1]] ["A"] ⟨"", none, SortDir.asc, false⟩).1 rfl

/-- Counterexample to Claim C1 as stated: with 11 matched rows and
showAllRows on, the derived hasMoreRows flag is true, not false. -/
theorem spec_C1_counterexample :
    (⟨"", none, SortDir.asc, true⟩ : ViewState).showAllRows = true ∧
    hasMoreRows (List.replicate 11 [Cell.num 1]) ["A"]
      ⟨"", none, SortDir.asc, true⟩ = true := by
  decide

/-- Claim C7: any file larger than the 10 MiB ceiling fails with
SizeExceeded regardless of its declared MIME type (the size check runs
before the type check, so a file failing both surfaces SizeExceeded) and
regardless of the decoded matrix (no decode output is inspected). -/
theorem spec_C7_size_first (sizeBytes : Nat) (mimeType : String)
    (jsonData : List (List Cell))
    (h : sizeBytes > 10 * 1024 * 1024) :
    processExcelFile sizeBytes mimeType jsonData
      = Except.error UploadError.sizeExceeded := by
  unfold processExcelFile validateFile maxFileSize
  rw [if_pos h]

/-- Witness for C7: an 11 MiB file whose declared type also fails the type
check still surfaces SizeExceeded. -/
theorem spec_C7_witness :
    processExcelFile (11 * 1024 * 1024) "text/plain" [[Cell.str "A"], [Cell.num 1]]
      = Except.error UploadError.sizeExceeded :=
  spec_C7_size_first (11 * 1024 * 1024) "text/plain" [[Cell.str "A"], [Cell.num 1]]
    (by decide)

/-- Claim C8: a row is in the matched set iff it is in the data and the
search term is empty or some cell of the row, lowercased after string
coercion, contains the lowercased term as a substring; searching bob
against the Alice/Bob rows keeps only the Bob row, and the empty term
keeps every row. -/
theorem spec_C8_search :
    (∀ (data : List (List Cell)) (term : String) (r : List Cell),
      r ∈ filteredRows term data ↔
        r ∈ data ∧ (term = "" ∨ ∃ c ∈ r, cellMatches term c = true)) ∧
    filteredRows "bob" [[Cell.str "Alice", Cell.num 10], [Cell.str "Bob", Cell.num 20]]
      = [[Cell.str "Bob", Cell.num 20]] ∧
    filteredRows "" [[Cell.str "Alice", Cell.num 10], [Cell.str "Bob", Cell.num 20]]
      = [[Cell.str "Alice", Cell.num 10], [Cell.str "Bob", Cell.num 20]] := by
  refine ⟨?_, by decide, rfl⟩
  intro data term r
  unfold filteredRows
  by_cases ht : term = ""
  · simp [ht]
  · simp [ht, List.mem_filter, rowMatches, List.any_eq_true]

/-- Claim C9: after any sequence of successful uploads the history is
exactly the five most recent uploads, newest first (so it never exceeds
five records and the oldest is the one evicted on overflow). -/
theorem spec_C9_history (uploads : List UploadRecord) :
    histAfter uploads = uploads.reverse.take 5 ∧ (histAfter uploads).length ≤ 5 := by
  have aux : ∀ (us : List UploadRecord) (acc : List UploadRecord), acc.length ≤ 5 →
      List.foldl (fun a u => pushHistory u a) acc us = (us.reverse ++ acc).take 5 := by
    intro us
    induction us with
    | nil =>
      intro acc h
      simp [List.take_of_length_le h]
    | cons u rest ih =>
      intro acc h
      rw [List.foldl_cons, ih (pushHistory u acc)
        (by simp only [pushHistory, List.length_cons, List.length_take]; omega)]
      rw [List.reverse_cons, List.append_assoc]
      simp only [pushHistory, List.singleton_append]
      rw [List.take_append_eq_append_take, List.take_append_eq_append_take]
      congr 1
      generalize hk : 5 - rest.reverse.length = k
      have hk5 : k ≤ 5 := by omega
      cases k with
      | zero => simp
      | succ n =>
        have hn : n ≤ 4 := by omega
        simp [List.take_succ_cons, List.take_take, Nat.min_eq_left hn]
  have h := aux uploads [] (by simp)
  constructor
  · unfold histAfter
    rw [h, List.append_nil]
  · unfold histAfter
    rw [h, List.append_nil, List.length_take]
    exact Nat.min_le_left 5 _

/-- Claim C10: every falsy cell — the number 0, the boolean false, the
empty string, and a missing cell — renders as the dash placeholder, so a
genuine 0 is indistinguishable from an empty cell in the rendered table,
while a truthy cell renders as itself. -/
theorem spec_C10_falsy_render :
    (∀ c : Cell, jsTruthy c = false → renderCell c = Cell.str "-") ∧
    renderCell (Cell.num 0) = Cell.str "-" ∧
    renderCell (Cell.boolb false) = Cell.str "-" ∧
    renderCell (Cell.str "") = Cell.str "-" ∧
    renderCell (Cell.num 0) = renderCell Cell.empty ∧
    renderCell (Cell.num 7) = Cell.num 7 := by
  refine ⟨?_, by decide, by decide, by decide, by decide, by decide⟩
  intro c h
  unfold renderCell
  rw [h]
  simp

/-- Witness for C10: the number 0 is falsy and renders as the dash. -/
theorem spec_C10_witness :
    renderCell (Cell.num 0) = Cell.str "-" :=
  spec_C10_falsy_render.1 (Cell.num 0) (by decide)

/-- Claim C3: when a selected axis names a column absent from the headers
(and the axes are non-empty and data is present), chartData produces no
trace — but it also surfaces no error: the source returns null before the
error-setting branch is reached, so the failure is silent rather than a
distinct ColumnNotFound message. -/
theorem spec_C3_columnNotFound_amended (data : List (List Cell))
    (headers : List String) (x y : String) (ct : ChartType)
    (hx : x ≠ "") (hy : y ≠ "") (hd : data ≠ [])
    (hmiss : jsIndexOf headers x = -1 ∨ jsIndexOf headers y = -1) :
    chartData data headers x y ct = (none, none) := by
  have hd2 : data.length ≠ 0 := by simpa [List.length_eq_zero] using hd
  simp only [chartData]
  rw [if_neg (by simp [hx, hy, hd2]), if_pos (by rcases hmiss with h | h <;> simp [h])]

/-- Witness for C3 at a concrete stale selection. -/
theorem spec_C3_witness :
    chartData [[Cell.str "a", Cell.num 1]] ["A", "B"] "Z" "B" ChartType.line
      = (none, none) :=
  spec_C3_columnNotFound_amended [[Cell.str "a", Cell.num 1]] ["A", "B"] "Z" "B"
    ChartType.line (by decide) (by decide) (by decide) (Or.inl (by decide))

/-- Counterexample to Claim C3 as stated: with the stale axis Z over
headers [A], the build returns no trace and no error message at all — the
error component is none, not a distinct ColumnNotFound failure. -/
theorem spec_C3_counterexample :
    chartData [[Cell.str "a"]] ["A"] "Z" "A" ChartType.bar = (none, none) := by
  decide

/-- Claim C2 (amended): with non-empty axes that are present in the headers
and non-empty data, chartData pushes the no-numeric-data message exactly
when the y-column's numeric-coercion filter keeps nothing, and it returns
no trace in exactly the same case — for every chart type, pie included,
because the source checks the filter before switching on the chart type.
The filter is the source's: a value passes when Number(value) is not NaN
and the value is neither null nor the empty string, so booleans pass. -/
theorem spec_C2_noNumericData_amended (data : List (List Cell))
    (headers : List String) (x y : String) (ct : ChartType)
    (hx : x ≠ "") (hy : y ≠ "") (hd : data ≠ [])
    (hxi : jsIndexOf headers x ≠ -1) (hyi : jsIndexOf headers y ≠ -1) :
    ((chartData data headers x y ct).2 = some noNumericMsg ↔
      (data.map (fun r => jsGetI r (jsIndexOf headers y))).filter coercesNum = []) ∧
    ((chartData data headers x y ct).1 = none ↔
      (data.map (fun r => jsGetI r (jsIndexOf headers y))).filter coercesNum = []) := by
  have hd2 : data.length ≠ 0 := by simpa [List.length_eq_zero] using hd
  by_cases hf : (data.map (fun r => jsGetI r (jsIndexOf headers y))).filter coercesNum = []
  · have hcd : chartData data headers x y ct = (none, some noNumericMsg) := by
      simp only [chartData]
      rw [if_neg (by simp [hx, hy, hd2]), if_neg (by simp [hxi, hyi]),
          if_pos (by simp [hf])]
    rw [hcd]
    simp [hf]
  · have hone : ¬ ((data.map (fun r => jsGetI r (jsIndexOf headers y))).filter
        coercesNum).length = 0 := by
      simpa [List.length_eq_zero] using hf
    have hcd2 : (chartData data headers x y ct).2 = none := by
      simp only [chartData]
      rw [if_neg (by simp [hx, hy, hd2]), if_neg (by simp [hxi, hyi]), if_neg hone]
    have hcd1 : (chartData data headers x y ct).1 ≠ none := by
      simp only [chartData]
      rw [if_neg (by simp [hx, hy, hd2]), if_neg (by simp [hxi, hyi]), if_neg hone]
      simp
    constructor
    · rw [hcd2]
      simp [hf]
    · exact iff_of_false hcd1 hf

/-- Witness for C2 at a concrete store whose y-column has no numeric
value: the message is pushed. -/
theorem spec_C2_witness :
    (chartData [[Cell.str "a", Cell.str "x"]] ["A", "B"] "A" "B" ChartType.bar).2
      = some noNumericMsg :=
  ((spec_C2_noNumericData_amended [[Cell.str "a", Cell.str "x"]] ["A", "B"] "A" "B"
      ChartType.bar (by decide) (by decide) (by decide) (by decide) (by decide)).1).mpr
    (by decide)

/-- Counterexample to Claim C2 as stated, at two concrete inputs: a pie
chart over the y-column x, y, z does fail with the no-numeric-data message
(the claim says pie never does), and a bar chart over a boolean y-column
succeeds without any error although no y-value coerces under the claim's
own coercion rule (number, or fully-numeric string). -/
theorem spec_C2_counterexample :
    (chartData [[Cell.str "a", Cell.str "x"], [Cell.str "b", Cell.str "y"],
        [Cell.str "c", Cell.str "z"]] ["A", "B"] "A" "B" ChartType.pie).2
      = some noNumericMsg ∧
    (chartData [[Cell.str "a", Cell.boolb true]] ["A", "B"] "A" "B" ChartType.bar).2
      = none ∧
    ([Cell.boolb true].filter specCoercesNumeric) = [] := by
  decide

/-- Claim C5 (amended): a successful decode guarantees non-empty headers
and a non-empty row list, and it preserves uniform row length when the raw
matrix is uniform — but it does not enforce rows[i].length =
headers.length: no length check exists in the source, so a ragged matrix
decodes successfully. -/
theorem spec_C5_decode_amended (jsonData : List (List Cell)) (d : ExcelData)
    (h : decodeSheet jsonData = Except.ok d) :
    d.headers ≠ [] ∧ d.rows ≠ [] ∧
    ((∀ r ∈ jsonData, r.length = d.headers.length) →
      ∀ r ∈ d.rows, r.length = d.headers.length) := by
  cases jsonData with
  | nil => exact absurd h (by simp [decodeSheet])
  | cons hs rest =>
    by_cases h1 : hs.length = 0
    · rw [decodeSheet, if_pos h1] at h
      exact absurd h (by simp)
    · by_cases h2 : rest.length = 0
      · rw [decodeSheet, if_neg h1, if_pos h2] at h
        exact absurd h (by simp)
      · rw [decodeSheet, if_neg h1, if_neg h2] at h
        injection h with h3
        subst h3
        refine ⟨?_, ?_, ?_⟩
        · intro hcon
          exact h1 (by simp [show hs = [] from hcon])
        · intro hcon
          exact h2 (by simp [show rest = [] from hcon])
        · intro hall r hr
          exact hall r (List.mem_cons_of_mem hs hr)

/-- Witness for C5 at a concrete uniform decode. -/
theorem spec_C5_witness :
    ({ headers := [Cell.str "A"], rows := [[Cell.num 1]] } : ExcelData).headers ≠ [] :=
  (spec_C5_decode_amended [[Cell.str "A"], [Cell.num 1]]
    { headers := [Cell.str "A"], rows := [[Cell.num 1]] } rfl).1

/-- Counterexample to Claim C5 as stated: the ragged matrix with header
row A, B and the single one-cell data row decodes successfully, and its
data row has length 1 while headers has length 2. -/
theorem spec_C5_counterexample :
    decodeSheet [[Cell.str "A", Cell.str "B"], [Cell.str "x"]]
      = Except.ok { headers := [Cell.str "A", Cell.str "B"], rows := [[Cell.str "x"]] } ∧
    ¬ ∀ r ∈ ({ headers := [Cell.str "A", Cell.str "B"]
               rows := [[Cell.str "x"]] } : ExcelData).rows,
        r.length = ({ headers := [Cell.str "A", Cell.str "B"]
                      rows := [[Cell.str "x"]] } : ExcelData).headers.length :=
  ⟨rfl, by decide⟩

/-- Claim C6 (amended): whenever chartData is non-null the layout handed
to the chart widget carries title Y vs X and both axis titles — for every
chart type, pie included, because the layout object is built from the axis
names alone and never consults the chart type. -/
theorem spec_C6_layout_amended (data : List (List Cell)) (headers : List String)
    (x y : String) (ct : ChartType) (ts : List Trace) (L : Layout)
    (h : chartRender data headers x y ct = some (ts, L)) :
    L.title = y ++ " vs " ++ x ∧ L.xAxisTitle = some x ∧ L.yAxisTitle = some y := by
  unfold chartRender at h
  cases hc : (chartData data headers x y ct).1 with
  | none =>
    rw [hc] at h
    exact absurd h (by simp)
  | some ts2 =>
    rw [hc] at h
    injection h with h2
    injection h2 with ha hb
    rw [← hb]
    exact ⟨rfl, rfl, rfl⟩

/-- Witness for C6 at Scenario A with chart type bar. -/
theorem spec_C6_witness :
    ({ title := "Sales vs Name", xAxisTitle := some "Name",
        yAxisTitle := some "Sales" } : Layout).title = "Sales" ++ " vs " ++ "Name" ∧
    ({ title := "Sales vs Name", xAxisTitle := some "Name",
        yAxisTitle := some "Sales" } : Layout).xAxisTitle = some "Name" ∧
    ({ title := "Sales vs Name", xAxisTitle := some "Name",
        yAxisTitle := some "Sales" } : Layout).yAxisTitle = some "Sales" :=
  spec_C6_layout_amended [[Cell.str "Alice", Cell.num 10]] ["Name", "Sales"]
    "Name" "Sales" ChartType.bar
    [Trace.cart ⟨[Cell.str "Alice"], [Cell.num 10], "Sales vs Name", "bar",
      none, false, false⟩]
    { title := "Sales vs Name", xAxisTitle := some "Name", yAxisTitle := some "Sales" }
    (by decide)

/-- Counterexample to Claim C6 as stated: for chart type pie over Scenario
A's store, the layout paired with the traces still carries both axis
titles, instead of omitting them. -/
theorem spec_C6_counterexample :
    Option.map Prod.snd
      (chartRender [[Cell.str "Alice", Cell.num 10], [Cell.str "Bob", Cell.num 20]]
        ["Name", "Sales"] "Name" "Sales" ChartType.pie)
      = some { title := "Sales vs Name"
               xAxisTitle := some "Name"
               yAxisTitle := some "Sales" } := by
  decide
